import Mathlib

/-
Verification development for the AEROX Risk Decision & Negotiation Engine.

The embedding follows the Python sources:
  agents/tools.py            (exposure calculator, options generator, compliance validator)
  agents/model_loader.py     (risk gate, company scoring)
  agents/financial_analyst.py (financial analysis)
  agents/negotiation_agent.py (negotiation engine and deterministic fallback)
  agents/meta_agent.py       (decision orchestrator)
  agents/config.py           (process-wide constants)

Currency amounts and probabilities are modelled as exact rationals.  Python's
`round(x, n)` (round half to even) is modelled decimally by `roundHalfEven`;
presentation-only strings (option descriptions, chat prose) are abstracted to
fixed marker strings since no property depends on their content.
-/

set_option maxHeartbeats 1000000

/-- Decimal round-half-to-even of a rational to an integer, modelling Python's
`round(x)` on the exact decimal values arising in this development. -/
def roundHalfEven (x : ℚ) : ℤ :=
  let n := ⌊x⌋
  if x - n < 1/2 then n
  else if 1/2 < x - n then n + 1
  else if n % 2 = 0 then n else n + 1

/-- Python `round(x, 0)` as used on currency amounts (result kept rational). -/
def pyRound0 (x : ℚ) : ℚ := (roundHalfEven x : ℚ)

/-- Python `round(x, 2)` as used on expected-loss amounts. -/
def pyRound2 (x : ℚ) : ℚ := (roundHalfEven (x * 100) : ℚ) / 100

/-- `agents/tools.py::calculate_ead` -/
def calculate_ead (outstanding booking_amount upfront : ℚ) : ℚ :=
  outstanding + booking_amount - upfront

/-- `agents/tools.py::calculate_expected_loss` -/
def calculate_expected_loss (pd ead lgd : ℚ) : ℚ := pd * ead * lgd

/-- The `type` field of an option dict in `agents/tools.py::generate_options`. -/
inductive OptionKind where
  | shortened_settlement
  | upfront_payment
  | partial_approval
deriving DecidableEq

/-- One option dict produced by `generate_options` (the presentation-only
`description` string is omitted; no property concerns it). -/
structure CreditOption where
  option_id : String
  type : OptionKind
  settlement_days : ℕ
  upfront_amount : ℚ
  approved_amount : ℚ
  expected_loss : ℚ
  friction_score : ℚ
deriving DecidableEq

/-- Option A dict (shortened settlement), `tools.py` lines 69-81. -/
def mkOptionA (booking_amount el_7d : ℚ) : CreditOption :=
  { option_id := "A", type := .shortened_settlement, settlement_days := 7,
    upfront_amount := 0, approved_amount := booking_amount,
    expected_loss := pyRound2 el_7d, friction_score := 4 }

/-- Option B dict (upfront payment), `tools.py` lines 97-106. -/
def mkOptionB (booking_amount required_upfront el_upfront : ℚ) : CreditOption :=
  { option_id := "B", type := .upfront_payment, settlement_days := 30,
    upfront_amount := pyRound0 required_upfront, approved_amount := booking_amount,
    expected_loss := pyRound2 el_upfront, friction_score := 7 }

/-- Option C dict (partial approval), `tools.py` lines 116-125. -/
def mkOptionC (booking_amount partial_pct elPart : ℚ) : CreditOption :=
  { option_id := "C", type := .partial_approval, settlement_days := 14,
    upfront_amount := 0, approved_amount := pyRound0 (booking_amount * partial_pct),
    expected_loss := pyRound2 elPart,
    friction_score := 8 + (1 - partial_pct) * 2 }

/-- The fraction list `[0.5, 0.4, 0.3, 0.2]` of `tools.py` line 110. -/
def PARTIAL_PCTS : List ℚ := [1/2, 2/5, 3/10, 1/5]

/-- The option-C `for`/`break` loop of `tools.py` lines 110-126: emit the
option for the first fraction whose expected loss clears the budget, else
nothing. -/
def fractionLoop (outstanding booking_amount pd_14d lgd max_el : ℚ) :
    List ℚ → Option CreditOption
  | [] => none
  | partial_pct :: rest =>
    let partial_booking := booking_amount * partial_pct
    let partial_exposure := outstanding + partial_booking
    let elPart := calculate_expected_loss pd_14d partial_exposure lgd
    if elPart ≤ max_el then some (mkOptionC booking_amount partial_pct elPart)
    else fractionLoop outstanding booking_amount pd_14d lgd max_el rest

/-- Option A contribution to the candidate list (`tools.py` lines 69-81). -/
def optionA_list (exposure booking_amount pd_7d lgd max_el : ℚ) : List CreditOption :=
  let el_7d := calculate_expected_loss pd_7d exposure lgd
  if el_7d ≤ max_el then [mkOptionA booking_amount el_7d] else []

/-- Option B contribution to the candidate list (`tools.py` lines 83-106):
guarded by `pd_30d > 0`; the unclamped required upfront must lie in
`(0, 1.2 * booking_amount)`; it is then capped at `booking_amount`. -/
def optionB_list (exposure booking_amount pd_30d lgd max_el : ℚ) : List CreditOption :=
  if 0 < pd_30d then
    let required_upfront := max 0 (exposure - max_el / (pd_30d * lgd))
    if 0 < required_upfront ∧ required_upfront < booking_amount * (6/5) then
      let capped := min required_upfront booking_amount
      [mkOptionB booking_amount capped
        (calculate_expected_loss pd_30d (exposure - capped) lgd)]
    else []
  else []

/-- Option C contribution to the candidate list (`tools.py` lines 108-126). -/
def optionC_list (outstanding booking_amount pd_14d lgd max_el : ℚ) : List CreditOption :=
  (fractionLoop outstanding booking_amount pd_14d lgd max_el PARTIAL_PCTS).toList

/-- The sort key of `tools.py` line 129 (`sort(key=lambda x: x["friction_score"])`). -/
def frictionOrder (a b : CreditOption) : Prop := a.friction_score ≤ b.friction_score

instance : DecidableRel frictionOrder :=
  fun a b => inferInstanceAs (Decidable (a.friction_score ≤ b.friction_score))

/-- The unsorted candidate list built by `generate_options` before sorting. -/
def candidate_options (exposure outstanding booking_amount pd_7d pd_14d pd_30d lgd max_el : ℚ) :
    List CreditOption :=
  optionA_list exposure booking_amount pd_7d lgd max_el
    ++ optionB_list exposure booking_amount pd_30d lgd max_el
    ++ optionC_list outstanding booking_amount pd_14d lgd max_el

/-- `agents/tools.py::generate_options`: build candidates A, B, C, sort by
friction score ascending (Python's sort is stable; all emitted friction
scores are distinct constants), take the first three. -/
def generate_options (exposure outstanding booking_amount pd_7d pd_14d pd_30d lgd max_el : ℚ) :
    List CreditOption :=
  ((candidate_options exposure outstanding booking_amount pd_7d pd_14d pd_30d lgd
      max_el).insertionSort frictionOrder).take 3

/-- An entry of the `violations` list built by `agents/tools.py::validate_compliance`
(the formatted message text is abstracted to the option id and the failed check). -/
inductive Violation where
  | el_exceeds (option_id : String)
  | upfront_exceeds_approved (option_id : String)
  | settlement_days_out_of_range (option_id : String)
deriving DecidableEq

/-- The violations recorded for one option by the loop body of
`validate_compliance` (`tools.py` lines 151-168), in source order. -/
def optViolations (max_el : ℚ) (opt : CreditOption) : List Violation :=
  (if max_el < opt.expected_loss then [.el_exceeds opt.option_id] else [])
    ++ (if opt.approved_amount < opt.upfront_amount then
          [.upfront_exceeds_approved opt.option_id] else [])
    ++ (if ¬ (7 ≤ opt.settlement_days ∧ opt.settlement_days ≤ 90) then
          [.settlement_days_out_of_range opt.option_id] else [])

/-- The dict returned by `validate_compliance` (`tools.py` lines 170-175). -/
structure ValidationResult where
  compliant : Bool
  violations : List Violation
  options_count : ℕ
  all_checks_passed : Bool
deriving DecidableEq

/-- `agents/tools.py::validate_compliance`. -/
def validate_compliance (options : List CreditOption) (max_el : ℚ) : ValidationResult :=
  let violations := (options.map (optViolations max_el)).flatten
  { compliant := violations.length == 0, violations := violations,
    options_count := options.length, all_checks_passed := violations.length == 0 }

/-- The three risk categories. -/
inductive RiskCategory where
  | green
  | yellow
  | red
deriving DecidableEq

/-- The three thresholds of the decision matrix (`agents/config.py` lines 13-19;
the yellow band is implied). -/
structure DecisionMatrix where
  block_intent_threshold : ℚ
  approve_intent_threshold : ℚ
  approve_capacity_threshold : ℚ
deriving DecidableEq

/-- Modelled from the spec: the concrete threshold values.  `configs/config.yaml`
is not part of the sources; the values are the `config.py` fallback defaults,
which coincide with the spec's Scenario B thresholds
`{block=0.60, approve_intent=0.40, approve_capacity=0.70}`. -/
def DECISION_MATRIX : DecisionMatrix :=
  { block_intent_threshold := 3/5, approve_intent_threshold := 2/5,
    approve_capacity_threshold := 7/10 }

/-- `agents/model_loader.py::ModelLoader._categorize_risk` (lines 246-255). -/
def categorize (m : DecisionMatrix) (intent_score capacity_score : ℚ) : RiskCategory :=
  if m.block_intent_threshold ≤ intent_score then .red
  else if intent_score < m.approve_intent_threshold ∧
      m.approve_capacity_threshold ≤ capacity_score then .green
  else .yellow

/-- The dataset-row features read by `_estimate_intent_score` and
`_estimate_capacity_score` in `agents/model_loader.py`. -/
structure CompanyRow where
  chargeback_rate : ℚ
  dispute_count_90d : ℚ
  fraud_flag : Bool
  cancellation_rate : ℚ
  refund_request_rate : ℚ
  credit_utilization : ℚ
  on_time_payment_rate : ℚ
deriving DecidableEq

/-- `model_loader.py::_estimate_intent_score` (lines 200-228). -/
def estimateIntentScore (row : CompanyRow) : ℚ :=
  let base := (if row.fraud_flag then (3/5 : ℚ) else 0)
    + min (3/10) (row.chargeback_rate * (15/4))
    + min (3/20) (row.dispute_count_90d * (3/80))
    + min (1/10) (row.cancellation_rate * (1/4))
    + min (1/10) (row.refund_request_rate * (1/4))
  max (1/100) (min (99/100) base)

/-- `model_loader.py::_estimate_capacity_score` (lines 230-244). -/
def estimateCapacityScore (row : CompanyRow) : ℚ :=
  max (1/10) (min (19/20) ((1 - row.credit_utilization) * row.on_time_payment_rate))

/-- The scoring dict produced by `model_loader.py::score_company`
(`company_data`/`external_data` enrichment omitted; no claim concerns it). -/
structure ScoringResult where
  intent_score : ℚ
  capacity_score : ℚ
  pd_7d : ℚ
  pd_14d : ℚ
  pd_30d : ℚ
  risk_category : RiskCategory
deriving DecidableEq

/-- `agents/config.py::GREEN_FLAG_SCORES` (hard-coded category `green`). -/
def GREEN_FLAG_SCORES : ScoringResult :=
  { intent_score := 3/20, capacity_score := 17/20,
    pd_7d := 1/200, pd_14d := 1/100, pd_30d := 3/100, risk_category := .green }

/-- `agents/config.py::RED_FLAG_SCORES` (hard-coded category `red`). -/
def RED_FLAG_SCORES : ScoringResult :=
  { intent_score := 17/20, capacity_score := 1/4,
    pd_7d := 1/4, pd_14d := 2/5, pd_30d := 3/5, risk_category := .red }

/-- `agents/config.py::MOCK_ML_SCORES` (hard-coded category `yellow`). -/
def MOCK_ML_SCORES : ScoringResult :=
  { intent_score := 8/25, capacity_score := 11/20,
    pd_7d := 1/50, pd_14d := 2/25, pd_30d := 3/20, risk_category := .yellow }

/-- `model_loader.py::_dataset_based_score` (lines 154-198): estimates the two
scores from row features, derives the PD ladder, and computes the category
with `_categorize_risk`. -/
def dataset_based_score (row : CompanyRow) : ScoringResult :=
  let capacity_score := estimateCapacityScore row
  let intent_score := estimateIntentScore row
  let pd_7d := min (1/2) (max (1/1000) ((1 - capacity_score) * (3/100)))
  let pd_14d := min (3/5) (pd_7d * 3)
  let pd_30d := min (7/10) (pd_7d * 6)
  { intent_score := intent_score, capacity_score := capacity_score,
    pd_7d := pd_7d, pd_14d := pd_14d, pd_30d := pd_30d,
    risk_category := categorize DECISION_MATRIX intent_score capacity_score }

/-- The dispatch of `model_loader.py::score_company` (lines 59-81): the two
test company ids, the dataset-based path, and the mock fallback (taken when
the dataset is unavailable or row lookup fails). -/
inductive ScoreSource where
  | testGreen
  | testRed
  | dataset (row : CompanyRow)
  | mockFallback

/-- `agents/model_loader.py::ModelLoader.score_company`. -/
def score_company : ScoreSource → ScoringResult
  | .testGreen => GREEN_FLAG_SCORES
  | .testRed => RED_FLAG_SCORES
  | .dataset row => dataset_based_score row
  | .mockFallback => MOCK_ML_SCORES

/-- `agents/config.py::LGD`. -/
def LGD : ℚ := 7/10

/-- `agents/config.py::MAX_EXPECTED_LOSS`. -/
def MAX_EXPECTED_LOSS : ℚ := 5000

/-- The dict returned by `agents/financial_analyst.py::FinancialAnalystAgent.analyze`
(the `breakdown` sub-dict merely echoes the inputs and constants). -/
structure FinancialAnalysis where
  total_exposure : ℚ
  baseline_el_30d : ℚ
  exceeds_risk_appetite : Bool
  exceeds_by : ℚ
deriving DecidableEq

/-- `agents/financial_analyst.py::FinancialAnalystAgent.analyze` (lines 34-60). -/
def analyze (current_outstanding booking_amount pd_30d : ℚ) : FinancialAnalysis :=
  let total_exposure := calculate_ead current_outstanding booking_amount 0
  let baseline_el_30d := calculate_expected_loss pd_30d total_exposure LGD
  { total_exposure := total_exposure,
    baseline_el_30d := pyRound2 baseline_el_30d,
    exceeds_risk_appetite := decide (MAX_EXPECTED_LOSS < baseline_el_30d),
    exceeds_by := pyRound2 (max 0 (baseline_el_30d - MAX_EXPECTED_LOSS)) }

/-- The booking-request fields read by the negotiation engine
(`credit_limit`, `route`, `booking_date` are unused there). -/
structure BookingRequest where
  company_id : String
  company_name : String
  booking_amount : ℚ
  current_outstanding : ℚ
deriving DecidableEq

/-- The PD fields of the `ml_scores` dict read by the negotiation engine. -/
structure MLScores where
  pd_7d : ℚ
  pd_14d : ℚ
  pd_30d : ℚ
deriving DecidableEq

/-- The `offer` sub-dict of a negotiation result. -/
structure NegOffer where
  upfront : ℚ
  settlement_days : ℕ
  approved_amount : ℚ
deriving DecidableEq

/-- The dict returned by `NegotiationAgent.negotiate`
(also the shape of a parsed Narrator/LLM reply). -/
structure NegResult where
  response : String
  offer : Option NegOffer
  expected_loss : Option ℚ
  escalate : Bool
deriving DecidableEq

/-- The interpolated 10-day default probability of
`negotiation_agent.py::_simple_offer` (line 178). -/
def pd_10d (ml : MLScores) : ℚ := (ml.pd_7d + ml.pd_14d) / 2

/-- `exposure = outstanding + booking_amount` as computed in
`negotiation_agent.py` (lines 96 and 182). -/
def negotiationExposure (br : BookingRequest) : ℚ :=
  br.current_outstanding + br.booking_amount

/-- The unclamped required upfront of `_simple_offer` (line 184):
`exposure - max_el / (pd_10d * LGD)`. -/
def rawRequiredUpfront (br : BookingRequest) (ml : MLScores) (max_el : ℚ) : ℚ :=
  negotiationExposure br - max_el / (pd_10d ml * LGD)

/-- The clamp of `_simple_offer` (line 185):
`max(0, min(booking_amount * 0.5, required_upfront))`. -/
def clampedRequiredUpfront (br : BookingRequest) (ml : MLScores) (max_el : ℚ) : ℚ :=
  max 0 (min (br.booking_amount * (1/2)) (rawRequiredUpfront br ml max_el))

/-- `agents/negotiation_agent.py::NegotiationAgent._simple_offer` (lines 171-198),
the deterministic no-LLM fallback counter-offer. -/
def simple_offer (br : BookingRequest) (ml : MLScores) (max_el : ℚ) : NegResult :=
  let required_upfront := clampedRequiredUpfront br ml max_el
  let el := calculate_expected_loss (pd_10d ml)
    (negotiationExposure br - required_upfront) LGD
  { response := "simple counter-offer (presentation text abstracted)",
    offer := some { upfront := pyRound0 required_upfront, settlement_days := 10,
                    approved_amount := br.booking_amount },
    expected_loss := some (pyRound2 el),
    escalate := false }

/-- The fixed escalation reply of `negotiate` (lines 155-161); only the
company id enters the reference string. -/
def escalationResult (br : BookingRequest) : NegResult :=
  { response := "escalation to manual review, reference " ++ br.company_id,
    offer := none, expected_loss := none, escalate := true }

/-- The outcome of the Narrator/LLM `try` block of `negotiate`
(`negotiation_agent.py` lines 111-149).  The in-place appends to
`self.conversation_history` at lines 142-143 precede the later exception
sites, so the constructors record how much of the session state was mutated
before the exception (if any) reached the `except` handler:
* `failedEarly` — prompt formatting, the LLM call, fence stripping or
  `json.loads` raised (lines 113-139): no turn appended.
* `failedNoResponse` — the reply parsed as JSON but reading
  `result['response']` raised `KeyError` (line 143): the customer turn
  (line 142) was already appended.
* `failedLogging response` — both turns were appended (lines 142-143, the
  Agent turn holding `result['response']`) and the logging format string
  raised (lines 145-147, e.g. a non-numeric `expected_loss` met `:,.2f`);
  the rest of the malformed reply is discarded by the fallback.
* `parsed r` — full success: both turns appended, `r` returned (line 149). -/
inductive NarratorOutcome where
  | failedEarly
  | failedNoResponse
  | failedLogging (response : String)
  | parsed (result : NegResult)

/-- Whether the `try` block raised, i.e. the `except` handler of
`negotiation_agent.py` lines 151-169 runs. -/
def narratorFailed : NarratorOutcome → Bool
  | .parsed _ => false
  | _ => true

/-- The turns appended to the conversation history by the `try` block
(lines 142-143) before control left it. -/
def appendedTurns (user_message : String) : NarratorOutcome → List (String × String)
  | .failedEarly => []
  | .failedNoResponse => [("Customer", user_message)]
  | .failedLogging response => [("Customer", user_message), ("Agent", response)]
  | .parsed result => [("Customer", user_message), ("Agent", result.response)]

/-- `agents/negotiation_agent.py::NegotiationAgent.negotiate` (lines 72-169).
On a fully parsed reply the result is returned as-is; when the `try` block
raised, the engine escalates iff `round_number >= 3` and otherwise returns
the deterministic fallback.  In every case the new history is the old one
plus whatever turns the `try` block already appended in place. -/
def negotiate (llm_outcome : NarratorOutcome) (user_message : String)
    (round_number : ℤ) (br : BookingRequest) (ml : MLScores) (max_el : ℚ)
    (history : List (String × String)) : NegResult × List (String × String) :=
  let history' := history ++ appendedTurns user_message llm_outcome
  match llm_outcome with
  | .parsed result => (result, history')
  | _ =>
    if 3 ≤ round_number then (escalationResult br, history')
    else (simple_offer br ml max_el, history')

/-- The `decision` field of the orchestrator's result. -/
inductive Decision where
  | APPROVED
  | BLOCKED
  | NEGOTIATE
deriving DecidableEq

/-- The category the decision gate of `meta_agent.py::process_booking_request`
branches on (line 69): the `risk_category` field embedded in the scorer's
output, read verbatim — `_categorize_risk` is not re-invoked here. -/
def decisionGateCategory (scoring_result : ScoringResult) : RiskCategory :=
  scoring_result.risk_category

/-- The decision and category of the orchestrator's result dict. -/
structure DecisionRecord where
  decision : Decision
  risk_category : RiskCategory
deriving DecidableEq

/-- `agents/meta_agent.py::MetaAgent.process_booking_request` (lines 36-220),
restricted to the decision-relevant skeleton: score, branch on the embedded
category, and for yellow run financial analysis → options generator →
compliance validator (the narrative agents only produce presentation text). -/
def process_booking_request (br : BookingRequest) (src : ScoreSource) : DecisionRecord :=
  let sr := score_company src
  match decisionGateCategory sr with
  | .green => { decision := .APPROVED, risk_category := .green }
  | .red => { decision := .BLOCKED, risk_category := .red }
  | .yellow =>
    let fa := analyze br.current_outstanding br.booking_amount sr.pd_30d
    let options := generate_options fa.total_exposure br.current_outstanding
      br.booking_amount sr.pd_7d sr.pd_14d sr.pd_30d LGD MAX_EXPECTED_LOSS
    if options.isEmpty then { decision := .BLOCKED, risk_category := .yellow }
    else if (validate_compliance options MAX_EXPECTED_LOSS).compliant then
      { decision := .NEGOTIATE, risk_category := .yellow }
    else { decision := .BLOCKED, risk_category := .yellow }

/-- `agents/config.py::MOCK_BOOKING_REQUEST` (fields used by the engine). -/
def MOCK_BOOKING_REQUEST : BookingRequest :=
  { company_id := "IN-TRV-000567", company_name := "MediumRisk Agency",
    booking_amount := 50000, current_outstanding := 45000 }

/-- The PD values of `MOCK_ML_SCORES` as fed to the negotiation engine. -/
def MOCK_PD_SCORES : MLScores := { pd_7d := 1/50, pd_14d := 2/25, pd_30d := 3/20 }

/-! ### Helper lemmas about the rounding model -/

theorem floor_le_roundHalfEven (x : ℚ) : ⌊x⌋ ≤ roundHalfEven x := by
  unfold roundHalfEven
  dsimp only
  split
  · exact le_refl _
  · split
    · exact Int.le_of_lt (Int.lt_succ _)
    · split
      · exact le_refl _
      · exact Int.le_of_lt (Int.lt_succ _)

theorem roundHalfEven_le_ceil (x : ℚ) : roundHalfEven x ≤ ⌈x⌉ := by
  unfold roundHalfEven
  dsimp only
  split
  · exact Int.floor_le_ceil x
  · rename_i h
    push_neg at h
    have hx : (⌊x⌋ : ℚ) < x := by
      have : (0:ℚ) < 1/2 := by norm_num
      linarith
    have hc : ⌊x⌋ < ⌈x⌉ := Int.lt_ceil.mpr hx
    have hc' : ⌊x⌋ + 1 ≤ ⌈x⌉ := Int.add_one_le_iff.mpr hc
    split
    · exact hc'
    · split
      · exact le_trans (Int.le_of_lt (Int.lt_succ _)) hc'
      · exact hc'

theorem roundHalfEven_nonneg {x : ℚ} (h : 0 ≤ x) : 0 ≤ roundHalfEven x :=
  le_trans (Int.floor_nonneg.mpr h) (floor_le_roundHalfEven x)

theorem roundHalfEven_intCast (k : ℤ) : roundHalfEven (k : ℚ) = k := by
  unfold roundHalfEven
  dsimp only
  rw [Int.floor_intCast]
  norm_num

theorem pyRound0_nonneg {x : ℚ} (h : 0 ≤ x) : 0 ≤ pyRound0 x := by
  unfold pyRound0
  exact_mod_cast roundHalfEven_nonneg h

theorem pyRound0_le_int {x : ℚ} {k : ℤ} (h : x ≤ (k : ℚ)) : pyRound0 x ≤ (k : ℚ) := by
  unfold pyRound0
  have h1 : roundHalfEven x ≤ ⌈x⌉ := roundHalfEven_le_ceil x
  have h2 : ⌈x⌉ ≤ k := Int.ceil_le.mpr h
  exact_mod_cast le_trans h1 h2

theorem pyRound2_le_cent {x : ℚ} {k : ℤ} (h : x ≤ (k : ℚ) / 100) :
    pyRound2 x ≤ (k : ℚ) / 100 := by
  unfold pyRound2
  have hx : x * 100 ≤ (k : ℚ) := by linarith
  have h1 : roundHalfEven (x * 100) ≤ ⌈x * 100⌉ := roundHalfEven_le_ceil _
  have h2 : ⌈x * 100⌉ ≤ k := Int.ceil_le.mpr hx
  have h3 : ((roundHalfEven (x * 100) : ℚ)) ≤ (k : ℚ) := by exact_mod_cast le_trans h1 h2
  have : (0:ℚ) < 100 := by norm_num
  gcongr

theorem pyRound2_cent (k : ℤ) : pyRound2 ((k : ℚ) / 100) = (k : ℚ) / 100 := by
  unfold pyRound2
  have h : ((k : ℚ) / 100) * 100 = (k : ℚ) := by field_simp
  rw [h, roundHalfEven_intCast]

theorem pyRound2_nonneg {x : ℚ} (h : 0 ≤ x) : 0 ≤ pyRound2 x := by
  unfold pyRound2
  have h1 : 0 ≤ roundHalfEven (x * 100) := roundHalfEven_nonneg (by linarith)
  have h2 : (0:ℚ) ≤ (roundHalfEven (x * 100) : ℚ) := by exact_mod_cast h1
  positivity

/-! ### Structure lemmas about the options generator -/

theorem length_optionA_list (exposure booking_amount pd_7d lgd max_el : ℚ) :
    (optionA_list exposure booking_amount pd_7d lgd max_el).length ≤ 1 := by
  unfold optionA_list
  dsimp only
  split <;> simp

theorem length_optionB_list (exposure booking_amount pd_30d lgd max_el : ℚ) :
    (optionB_list exposure booking_amount pd_30d lgd max_el).length ≤ 1 := by
  unfold optionB_list
  dsimp only
  split
  · split <;> simp
  · simp

theorem length_optionC_list (outstanding booking_amount pd_14d lgd max_el : ℚ) :
    (optionC_list outstanding booking_amount pd_14d lgd max_el).length ≤ 1 := by
  unfold optionC_list
  cases fractionLoop outstanding booking_amount pd_14d lgd max_el PARTIAL_PCTS <;> simp

theorem length_candidate_options
    (exposure outstanding booking_amount pd_7d pd_14d pd_30d lgd max_el : ℚ) :
    (candidate_options exposure outstanding booking_amount pd_7d pd_14d pd_30d lgd
      max_el).length ≤ 3 := by
  unfold candidate_options
  have hA := length_optionA_list exposure booking_amount pd_7d lgd max_el
  have hB := length_optionB_list exposure booking_amount pd_30d lgd max_el
  have hC := length_optionC_list outstanding booking_amount pd_14d lgd max_el
  simp only [List.length_append]
  omega

/-- The `take 3` of `generate_options` never truncates (at most three
candidates exist), so its output is exactly the sorted candidate list. -/
theorem generate_options_eq_sorted
    (exposure outstanding booking_amount pd_7d pd_14d pd_30d lgd max_el : ℚ) :
    generate_options exposure outstanding booking_amount pd_7d pd_14d pd_30d lgd max_el
      = (candidate_options exposure outstanding booking_amount pd_7d pd_14d pd_30d lgd
          max_el).insertionSort frictionOrder := by
  unfold generate_options
  apply List.take_of_length_le
  rw [List.length_insertionSort]
  exact length_candidate_options _ _ _ _ _ _ _ _

/-- Membership in the generator's output is membership in the candidate list. -/
theorem mem_generate_options_iff {opt : CreditOption}
    {exposure outstanding booking_amount pd_7d pd_14d pd_30d lgd max_el : ℚ} :
    opt ∈ generate_options exposure outstanding booking_amount pd_7d pd_14d pd_30d lgd max_el
      ↔ opt ∈ candidate_options exposure outstanding booking_amount pd_7d pd_14d pd_30d
          lgd max_el := by
  rw [generate_options_eq_sorted]
  exact List.mem_insertionSort frictionOrder

/-- Characterization of membership in the option-A sublist. -/
theorem mem_optionA_list {opt : CreditOption} {exposure booking_amount pd_7d lgd max_el : ℚ} :
    opt ∈ optionA_list exposure booking_amount pd_7d lgd max_el ↔
      calculate_expected_loss pd_7d exposure lgd ≤ max_el ∧
        opt = mkOptionA booking_amount (calculate_expected_loss pd_7d exposure lgd) := by
  unfold optionA_list
  dsimp only
  split
  · rename_i h
    simp [h]
  · rename_i h
    simp [h]

/-- Characterization of membership in the option-B sublist. -/
theorem mem_optionB_list {opt : CreditOption} {exposure booking_amount pd_30d lgd max_el : ℚ} :
    opt ∈ optionB_list exposure booking_amount pd_30d lgd max_el ↔
      0 < pd_30d ∧
      0 < max 0 (exposure - max_el / (pd_30d * lgd)) ∧
      max 0 (exposure - max_el / (pd_30d * lgd)) < booking_amount * (6/5) ∧
      opt = mkOptionB booking_amount
        (min (max 0 (exposure - max_el / (pd_30d * lgd))) booking_amount)
        (calculate_expected_loss pd_30d
          (exposure - min (max 0 (exposure - max_el / (pd_30d * lgd))) booking_amount) lgd) := by
  unfold optionB_list
  dsimp only
  split
  · rename_i h30
    split
    · rename_i hg
      simp [h30, hg.1, hg.2]
    · rename_i hg
      simp only [List.not_mem_nil, false_iff]
      rintro ⟨_, hA, hB, _⟩
      exact hg ⟨hA, hB⟩
  · rename_i h30
    simp only [List.not_mem_nil, false_iff]
    rintro ⟨h, _⟩
    exact h30 h

/-- Membership in the option-C sublist is exactly the loop succeeding. -/
theorem mem_optionC_list {opt : CreditOption} {outstanding booking_amount pd_14d lgd max_el : ℚ} :
    opt ∈ optionC_list outstanding booking_amount pd_14d lgd max_el ↔
      fractionLoop outstanding booking_amount pd_14d lgd max_el PARTIAL_PCTS = some opt := by
  unfold optionC_list
  cases h : fractionLoop outstanding booking_amount pd_14d lgd max_el PARTIAL_PCTS <;>
    simp [h, eq_comm]

/-- If the fraction loop succeeds, the returned option belongs to one of the
tried fractions and clears the budget. -/
theorem fractionLoop_eq_some {outstanding booking_amount pd_14d lgd max_el : ℚ}
    {l : List ℚ} {opt : CreditOption}
    (h : fractionLoop outstanding booking_amount pd_14d lgd max_el l = some opt) :
    ∃ partial_pct ∈ l,
      calculate_expected_loss pd_14d (outstanding + booking_amount * partial_pct) lgd ≤ max_el ∧
      opt = mkOptionC booking_amount partial_pct
        (calculate_expected_loss pd_14d (outstanding + booking_amount * partial_pct) lgd) := by
  induction l with
  | nil => simp [fractionLoop] at h
  | cons pct rest ih =>
    rw [fractionLoop] at h
    split at h
    · rename_i hc
      exact ⟨pct, List.mem_cons_self _ _, hc, (Option.some.inj h).symm⟩
    · obtain ⟨pct', hmem, hcl, heq⟩ := ih h
      exact ⟨pct', List.mem_cons_of_mem _ hmem, hcl, heq⟩

/-- If no tried fraction clears the budget the loop fails. -/
theorem fractionLoop_eq_none {outstanding booking_amount pd_14d lgd max_el : ℚ}
    {l : List ℚ}
    (h : ∀ partial_pct ∈ l,
      ¬ calculate_expected_loss pd_14d (outstanding + booking_amount * partial_pct) lgd
          ≤ max_el) :
    fractionLoop outstanding booking_amount pd_14d lgd max_el l = none := by
  induction l with
  | nil => rfl
  | cons pct rest ih =>
    rw [fractionLoop]
    split
    · rename_i hc
      exact absurd hc (h pct (List.mem_cons_self _ _))
    · exact ih fun q hq => h q (List.mem_cons_of_mem _ hq)

/-- The generator's output is a permutation of the candidate list. -/
theorem generate_options_perm
    (exposure outstanding booking_amount pd_7d pd_14d pd_30d lgd max_el : ℚ) :
    (generate_options exposure outstanding booking_amount pd_7d pd_14d pd_30d lgd
        max_el).Perm
      (candidate_options exposure outstanding booking_amount pd_7d pd_14d pd_30d lgd
        max_el) := by
  rw [generate_options_eq_sorted]
  exact List.perm_insertionSort frictionOrder _

/-! ### Concrete runs of the options generator used below

Counterexample scenario: exposure 20000 (outstanding 10000 + booking 10000),
pd_7d = 0.4, pd_14d = 0.6, pd_30d = 0.5, lgd = 0.7, budget 3000.  The unclamped
required upfront is 80000/7 ≈ 11428.57, inside the admission window
(0, 12000) but above the booking amount; capping it at 10000 leaves the
30-day expected loss at 0.5 × 10000 × 0.7 = 3500 > 3000. -/

/-- The upfront-payment option actually emitted in the counterexample run. -/
def overBudgetOptionB : CreditOption :=
  { option_id := "B", type := .upfront_payment, settlement_days := 30,
    upfront_amount := 10000, approved_amount := 10000,
    expected_loss := 3500, friction_score := 7 }

theorem cex_generate_options_eq :
    generate_options 20000 10000 10000 (2/5) (3/5) (1/2) (7/10) 3000
      = [overBudgetOptionB] := by
  norm_num [generate_options, candidate_options, optionA_list, optionB_list, optionC_list,
    fractionLoop, PARTIAL_PCTS, mkOptionA, mkOptionB, mkOptionC, calculate_expected_loss,
    List.insertionSort, List.orderedInsert, frictionOrder, pyRound0, pyRound2,
    roundHalfEven, Int.floor_eq_iff, overBudgetOptionB, min_def, max_def]

/-! Witness scenario (the spec's running example): outstanding 45000,
booking 50000, exposure 95000, pd_7d = 0.02, pd_14d = 0.08, pd_30d = 0.15,
lgd = 0.7, budget 5000.  All three constructions are admitted. -/

/-- Option A of the witness run. -/
def witOptionA : CreditOption :=
  { option_id := "A", type := .shortened_settlement, settlement_days := 7,
    upfront_amount := 0, approved_amount := 50000,
    expected_loss := 1330, friction_score := 4 }

/-- Option B of the witness run (upfront 995000/21 ≈ 47380.95 rounds to 47381,
expected loss exactly at the 5000 budget). -/
def witOptionB : CreditOption :=
  { option_id := "B", type := .upfront_payment, settlement_days := 30,
    upfront_amount := 47381, approved_amount := 50000,
    expected_loss := 5000, friction_score := 7 }

/-- Option C of the witness run (first fraction 0.5 already clears). -/
def witOptionC : CreditOption :=
  { option_id := "C", type := .partial_approval, settlement_days := 14,
    upfront_amount := 0, approved_amount := 25000,
    expected_loss := 3920, friction_score := 9 }

theorem wit_generate_options_eq :
    generate_options 95000 45000 50000 (1/50) (2/25) (3/20) (7/10) 5000
      = [witOptionA, witOptionB, witOptionC] := by
  norm_num [generate_options, candidate_options, optionA_list, optionB_list, optionC_list,
    fractionLoop, PARTIAL_PCTS, mkOptionA, mkOptionB, mkOptionC, calculate_expected_loss,
    List.insertionSort, List.orderedInsert, frictionOrder, pyRound0, pyRound2,
    roundHalfEven, Int.floor_eq_iff, witOptionA, witOptionB, witOptionC, min_def, max_def]

/-! ### C1 — invariants of the options generator -/

/-- C1 (counterexample): the claim "every option returned by the generator
satisfies `expected_loss ≤ max_expected_loss` — in particular the
upfront-payment option still clears the budget after the upfront is capped at
the booking amount" is false.  With exposure 20000, outstanding 10000,
booking 10000, pd_7d 0.4, pd_14d 0.6, pd_30d 0.5, lgd 0.7 and budget 3000 the
generator emits an upfront-payment option whose expected loss is 3500 > 3000:
the unclamped required upfront 80000/7 lies between the booking amount and
1.2 × booking, so the cap at the booking amount leaves the recomputed
expected loss above the budget. -/
theorem C1_option_invariants_cex :
    overBudgetOptionB ∈ generate_options 20000 10000 10000 (2/5) (3/5) (1/2) (7/10) 3000 ∧
      3000 < overBudgetOptionB.expected_loss := by
  constructor
  · rw [cex_generate_options_eq]
    simp
  · norm_num [overBudgetOptionB]

/-- C1 (amended): for nonnegative booking amounts, positive LGD and a budget
that is a whole number of hundredths, every option returned by
`generate_options` has `7 ≤ settlement_days ≤ 90` and `0 ≤ upfront_amount`;
shortened-settlement and partial-approval options additionally satisfy
`expected_loss ≤ max_el` and `upfront_amount ≤ approved_amount`; the
upfront-payment option satisfies `upfront_amount ≤ approved_amount` whenever
the booking amount is a whole number, and satisfies `expected_loss ≤ max_el`
whenever the unclamped required upfront does not exceed the booking amount
(when the cap binds, the expected loss exceeds the budget — see the
counterexample). -/
theorem C1_option_invariants
    (exposure outstanding booking_amount pd_7d pd_14d pd_30d lgd max_el : ℚ)
    (hbook : 0 ≤ booking_amount) (hlgd : 0 < lgd)
    (hcent : ∃ k : ℤ, max_el = (k : ℚ) / 100)
    (opt : CreditOption)
    (hmem : opt ∈ generate_options exposure outstanding booking_amount pd_7d pd_14d pd_30d
      lgd max_el) :
    (7 ≤ opt.settlement_days ∧ opt.settlement_days ≤ 90) ∧
    0 ≤ opt.upfront_amount ∧
    ((opt.type = .shortened_settlement ∨ opt.type = .partial_approval) →
      opt.expected_loss ≤ max_el ∧ opt.upfront_amount ≤ opt.approved_amount) ∧
    (opt.type = .upfront_payment →
      (exposure - max_el / (pd_30d * lgd) ≤ booking_amount →
        opt.expected_loss ≤ max_el) ∧
      ((∃ j : ℤ, booking_amount = (j : ℚ)) →
        opt.upfront_amount ≤ opt.approved_amount)) := by
  rw [mem_generate_options_iff] at hmem
  unfold candidate_options at hmem
  rcases List.mem_append.mp hmem with hAB | hC
  case inl =>
    rcases List.mem_append.mp hAB with hA | hB
    case inl =>
      obtain ⟨hel, rfl⟩ := mem_optionA_list.mp hA
      obtain ⟨k, rfl⟩ := hcent
      refine ⟨⟨by norm_num [mkOptionA], by norm_num [mkOptionA]⟩, ?_, ?_, ?_⟩
      · simp [mkOptionA]
      · intro _
        exact ⟨pyRound2_le_cent hel, by simpa [mkOptionA] using hbook⟩
      · intro h
        simp [mkOptionA] at h
    case inr =>
      obtain ⟨h30, hpos, _hlt, rfl⟩ := mem_optionB_list.mp hB
      refine ⟨⟨by norm_num [mkOptionB], by norm_num [mkOptionB]⟩, ?_, ?_, ?_⟩
      · have h0 : 0 ≤ min (max 0 (exposure - max_el / (pd_30d * lgd))) booking_amount :=
          le_min (le_max_left 0 _) hbook
        simpa [mkOptionB] using pyRound0_nonneg h0
      · intro h
        rcases h with h | h <;> simp [mkOptionB] at h
      · intro _
        constructor
        · intro hle
          have hrawpos : 0 < exposure - max_el / (pd_30d * lgd) := by
            rcases lt_max_iff.mp hpos with h | h
            · exact absurd h (lt_irrefl 0)
            · exact h
          have hmin : min (max 0 (exposure - max_el / (pd_30d * lgd))) booking_amount
              = exposure - max_el / (pd_30d * lgd) := by
            rw [max_eq_right hrawpos.le]
            exact min_eq_left hle
          have hel : calculate_expected_loss pd_30d
              (exposure - min (max 0 (exposure - max_el / (pd_30d * lgd))) booking_amount)
              lgd = max_el := by
            rw [hmin]
            unfold calculate_expected_loss
            have h1 : pd_30d ≠ 0 := ne_of_gt h30
            have h2 : lgd ≠ 0 := ne_of_gt hlgd
            field_simp
            ring
          show (mkOptionB _ _ _).expected_loss ≤ max_el
          simp only [mkOptionB]
          rw [hel]
          obtain ⟨k, rfl⟩ := hcent
          exact le_of_eq (pyRound2_cent k)
        · rintro ⟨j, hj⟩
          have hle : min (max 0 (exposure - max_el / (pd_30d * lgd))) booking_amount
              ≤ booking_amount := min_le_right _ _
          have := pyRound0_le_int (x := min (max 0 (exposure - max_el / (pd_30d * lgd)))
            booking_amount) (k := j) (by rw [← hj]; exact hle)
          simpa [mkOptionB, hj] using this
  case inr =>
    obtain ⟨pct, hpct, hel, rfl⟩ := fractionLoop_eq_some (mem_optionC_list.mp hC)
    have hpct0 : 0 ≤ pct := by
      simp only [PARTIAL_PCTS, List.mem_cons, List.not_mem_nil, or_false] at hpct
      rcases hpct with rfl | rfl | rfl | rfl <;> norm_num
    obtain ⟨k, rfl⟩ := hcent
    refine ⟨⟨by norm_num [mkOptionC], by norm_num [mkOptionC]⟩, ?_, ?_, ?_⟩
    · simp [mkOptionC]
    · intro _
      refine ⟨pyRound2_le_cent hel, ?_⟩
      have h0 : 0 ≤ booking_amount * pct := mul_nonneg hbook hpct0
      simpa [mkOptionC] using pyRound0_nonneg h0
    · intro h
      simp [mkOptionC] at h

/-- The partial-approval options among the generator's output (the observable
that C9 speaks about). -/
def partialApprovalOptions
    (exposure outstanding booking_amount pd_7d pd_14d pd_30d lgd max_el : ℚ) :
    List CreditOption :=
  (generate_options exposure outstanding booking_amount pd_7d pd_14d pd_30d lgd
      max_el).filter (fun opt => opt.type == OptionKind.partial_approval)

/-- "Fraction `partial_pct` clears the budget": the admission test of the
option-C loop. -/
def clearsFraction (outstanding booking_amount pd_14d lgd max_el partial_pct : ℚ) : Prop :=
  calculate_expected_loss pd_14d (outstanding + booking_amount * partial_pct) lgd ≤ max_el

instance (outstanding booking_amount pd_14d lgd max_el partial_pct : ℚ) :
    Decidable (clearsFraction outstanding booking_amount pd_14d lgd max_el partial_pct) :=
  inferInstanceAs (Decidable (_ ≤ _))

/-- The partial-approval options of the output are exactly the option-C
sublist: options A and B never carry the partial-approval kind, and sorting
plus `take 3` neither drops nor duplicates candidates. -/
theorem partialApprovalOptions_eq
    (exposure outstanding booking_amount pd_7d pd_14d pd_30d lgd max_el : ℚ) :
    partialApprovalOptions exposure outstanding booking_amount pd_7d pd_14d pd_30d lgd max_el
      = optionC_list outstanding booking_amount pd_14d lgd max_el := by
  have hperm := (generate_options_perm exposure outstanding booking_amount pd_7d pd_14d
    pd_30d lgd max_el).filter (fun opt => opt.type == OptionKind.partial_approval)
  have hcand : (candidate_options exposure outstanding booking_amount pd_7d pd_14d pd_30d
      lgd max_el).filter (fun opt => opt.type == OptionKind.partial_approval)
      = optionC_list outstanding booking_amount pd_14d lgd max_el := by
    unfold candidate_options
    rw [List.filter_append, List.filter_append]
    have hA : (optionA_list exposure booking_amount pd_7d lgd max_el).filter
        (fun opt => opt.type == OptionKind.partial_approval) = [] := by
      unfold optionA_list
      dsimp only
      split <;> simp [mkOptionA]
    have hB : (optionB_list exposure booking_amount pd_30d lgd max_el).filter
        (fun opt => opt.type == OptionKind.partial_approval) = [] := by
      unfold optionB_list
      dsimp only
      split
      · split <;> simp [mkOptionB]
      · simp
    have hC : (optionC_list outstanding booking_amount pd_14d lgd max_el).filter
        (fun opt => opt.type == OptionKind.partial_approval)
        = optionC_list outstanding booking_amount pd_14d lgd max_el := by
      unfold optionC_list
      cases h : fractionLoop outstanding booking_amount pd_14d lgd max_el PARTIAL_PCTS with
      | none => simp
      | some opt =>
        obtain ⟨pct, _, _, rfl⟩ := fractionLoop_eq_some h
        simp [mkOptionC]
    rw [hA, hB, hC]
    simp
  rw [hcand] at hperm
  unfold partialApprovalOptions
  rcases h : fractionLoop outstanding booking_amount pd_14d lgd max_el PARTIAL_PCTS with
    _ | opt
  · have : optionC_list outstanding booking_amount pd_14d lgd max_el = [] := by
      unfold optionC_list
      rw [h]
      rfl
    rw [this] at hperm ⊢
    exact hperm.eq_nil
  · have : optionC_list outstanding booking_amount pd_14d lgd max_el = [opt] := by
      unfold optionC_list
      rw [h]
      rfl
    rw [this] at hperm ⊢
    exact List.perm_singleton.mp hperm

/-! ### C9 — partial-approval construction -/

/-- C9 (confirmed): the partial-approval construction tries the fractions
50 %, 40 %, 30 %, 20 % of the requested booking exactly in that order,
evaluating the 14-day expected loss against `outstanding + reducedBooking`;
the option for the first clearing fraction is the sole partial-approval
option emitted (smaller fractions are not tried); if no fraction clears, no
partial-approval option is emitted; and the friction score `8 + (1 - pct)·2`
strictly increases as the retained fraction `pct` decreases. -/
theorem C9_partial_approval
    (exposure outstanding booking_amount pd_7d pd_14d pd_30d lgd max_el : ℚ) :
    (clearsFraction outstanding booking_amount pd_14d lgd max_el (1/2) →
      partialApprovalOptions exposure outstanding booking_amount pd_7d pd_14d pd_30d lgd
          max_el
        = [mkOptionC booking_amount (1/2)
            (calculate_expected_loss pd_14d (outstanding + booking_amount * (1/2)) lgd)]) ∧
    (¬ clearsFraction outstanding booking_amount pd_14d lgd max_el (1/2) →
      clearsFraction outstanding booking_amount pd_14d lgd max_el (2/5) →
      partialApprovalOptions exposure outstanding booking_amount pd_7d pd_14d pd_30d lgd
          max_el
        = [mkOptionC booking_amount (2/5)
            (calculate_expected_loss pd_14d (outstanding + booking_amount * (2/5)) lgd)]) ∧
    (¬ clearsFraction outstanding booking_amount pd_14d lgd max_el (1/2) →
      ¬ clearsFraction outstanding booking_amount pd_14d lgd max_el (2/5) →
      clearsFraction outstanding booking_amount pd_14d lgd max_el (3/10) →
      partialApprovalOptions exposure outstanding booking_amount pd_7d pd_14d pd_30d lgd
          max_el
        = [mkOptionC booking_amount (3/10)
            (calculate_expected_loss pd_14d (outstanding + booking_amount * (3/10)) lgd)]) ∧
    (¬ clearsFraction outstanding booking_amount pd_14d lgd max_el (1/2) →
      ¬ clearsFraction outstanding booking_amount pd_14d lgd max_el (2/5) →
      ¬ clearsFraction outstanding booking_amount pd_14d lgd max_el (3/10) →
      clearsFraction outstanding booking_amount pd_14d lgd max_el (1/5) →
      partialApprovalOptions exposure outstanding booking_amount pd_7d pd_14d pd_30d lgd
          max_el
        = [mkOptionC booking_amount (1/5)
            (calculate_expected_loss pd_14d (outstanding + booking_amount * (1/5)) lgd)]) ∧
    (¬ clearsFraction outstanding booking_amount pd_14d lgd max_el (1/2) →
      ¬ clearsFraction outstanding booking_amount pd_14d lgd max_el (2/5) →
      ¬ clearsFraction outstanding booking_amount pd_14d lgd max_el (3/10) →
      ¬ clearsFraction outstanding booking_amount pd_14d lgd max_el (1/5) →
      partialApprovalOptions exposure outstanding booking_amount pd_7d pd_14d pd_30d lgd
          max_el = []) ∧
    (∀ p ∈ PARTIAL_PCTS, ∀ q ∈ PARTIAL_PCTS, q < p →
      8 + (1 - p) * 2 < 8 + (1 - q) * 2) := by
  rw [partialApprovalOptions_eq]
  unfold clearsFraction
  refine ⟨?_, ?_, ?_, ?_, ?_, ?_⟩
  · intro h1
    simp only [optionC_list, PARTIAL_PCTS, fractionLoop]
    rw [if_pos h1]
    rfl
  · intro h1 h2
    simp only [optionC_list, PARTIAL_PCTS, fractionLoop]
    rw [if_neg h1, if_pos h2]
    rfl
  · intro h1 h2 h3
    simp only [optionC_list, PARTIAL_PCTS, fractionLoop]
    rw [if_neg h1, if_neg h2, if_pos h3]
    rfl
  · intro h1 h2 h3 h4
    simp only [optionC_list, PARTIAL_PCTS, fractionLoop]
    rw [if_neg h1, if_neg h2, if_neg h3, if_pos h4]
    rfl
  · intro h1 h2 h3 h4
    simp only [optionC_list, PARTIAL_PCTS, fractionLoop]
    rw [if_neg h1, if_neg h2, if_neg h3, if_neg h4]
    rfl
  · intro p _ q _ hlt
    linarith

/-- C9 (witness): on the spec's running scenario the first fraction 0.5
already clears the budget and is the sole partial-approval option emitted. -/
theorem C9_partial_approval_witness :
    clearsFraction 45000 50000 (2/25) (7/10) 5000 (1/2) ∧
    partialApprovalOptions 95000 45000 50000 (1/50) (2/25) (3/20) (7/10) 5000
      = [mkOptionC 50000 (1/2)
          (calculate_expected_loss (2/25) (45000 + 50000 * (1/2)) (7/10))] := by
  have h : clearsFraction 45000 50000 (2/25) (7/10) 5000 (1/2) := by
    norm_num [clearsFraction, calculate_expected_loss]
  exact ⟨h, (C9_partial_approval 95000 45000 50000 (1/50) (2/25) (3/20) (7/10) 5000).1 h⟩

/-! ### C10 — no upfront-payment option when pd_30d = 0 -/

/-- C10 (confirmed): the division `max_el / (pd_30d * lgd)` in the
upfront-payment construction sits under the guard `pd_30d > 0`; with
`pd_30d = 0` the generator skips the construction entirely, so its output
contains no upfront-payment option. -/
theorem C10_no_upfront_on_zero_pd30
    (exposure outstanding booking_amount pd_7d pd_14d lgd max_el : ℚ)
    (opt : CreditOption)
    (hmem : opt ∈ generate_options exposure outstanding booking_amount pd_7d pd_14d 0 lgd
      max_el) :
    opt.type ≠ .upfront_payment := by
  rw [mem_generate_options_iff] at hmem
  unfold candidate_options at hmem
  rcases List.mem_append.mp hmem with hAB | hC
  case inl =>
    rcases List.mem_append.mp hAB with hA | hB
    case inl =>
      obtain ⟨_, rfl⟩ := mem_optionA_list.mp hA
      simp [mkOptionA]
    case inr =>
      obtain ⟨h0, _⟩ := mem_optionB_list.mp hB
      exact absurd h0 (lt_irrefl 0)
  case inr =>
    obtain ⟨pct, _, _, rfl⟩ := fractionLoop_eq_some (mem_optionC_list.mp hC)
    simp [mkOptionC]

theorem witz_generate_options_eq :
    generate_options 95000 45000 50000 (1/50) (2/25) 0 (7/10) 5000
      = [witOptionA, witOptionC] := by
  norm_num [generate_options, candidate_options, optionA_list, optionB_list, optionC_list,
    fractionLoop, PARTIAL_PCTS, mkOptionA, mkOptionB, mkOptionC, calculate_expected_loss,
    List.insertionSort, List.orderedInsert, frictionOrder, pyRound0, pyRound2,
    roundHalfEven, Int.floor_eq_iff, witOptionA, witOptionC, min_def, max_def]

/-- C10 (witness): the running scenario with `pd_30d = 0` — the shortened
settlement option is emitted and is not an upfront-payment option. -/
theorem C10_no_upfront_on_zero_pd30_witness :
    witOptionA ∈ generate_options 95000 45000 50000 (1/50) (2/25) 0 (7/10) 5000 ∧
    witOptionA.type ≠ .upfront_payment := by
  have hmem : witOptionA ∈ generate_options 95000 45000 50000 (1/50) (2/25) 0 (7/10)
      5000 := by
    rw [witz_generate_options_eq]
    simp
  exact ⟨hmem,
    C10_no_upfront_on_zero_pd30 95000 45000 50000 (1/50) (2/25) (7/10) 5000 witOptionA hmem⟩

/-! ### C7 — compliance validator -/

theorem ite_singleton_eq_nil {α : Type} {c : Prop} [Decidable c] {a : α} :
    (if c then [a] else []) = ([] : List α) ↔ ¬c := by
  split <;> simp [*]

/-- An option produces no violation entries exactly when it passes all three
checks. -/
theorem optViolations_eq_nil_iff {max_el : ℚ} {opt : CreditOption} :
    optViolations max_el opt = [] ↔
      opt.expected_loss ≤ max_el ∧ opt.upfront_amount ≤ opt.approved_amount ∧
        (7 ≤ opt.settlement_days ∧ opt.settlement_days ≤ 90) := by
  unfold optViolations
  simp only [List.append_eq_nil, ite_singleton_eq_nil, not_lt, not_not, and_assoc]

/-- C7 (counterexample): the claim's consequent — "any `CreditOption`
generated by the Options Generator and passed through unmodified yields
`compliant = true` with zero violations" — is false: on the capped-upfront
run (exposure 20000, outstanding 10000, booking 10000, pd values 0.4/0.6/0.5,
lgd 0.7, budget 3000) the generator's own output fails the validator. -/
theorem C7_validator_cex :
    (validate_compliance
        (generate_options 20000 10000 10000 (2/5) (3/5) (1/2) (7/10) 3000)
        3000).compliant = false ∧
    (validate_compliance
        (generate_options 20000 10000 10000 (2/5) (3/5) (1/2) (7/10) 3000)
        3000).violations = [.el_exceeds "B"] := by
  rw [cex_generate_options_eq]
  constructor <;>
    norm_num [validate_compliance, optViolations, overBudgetOptionB]

/-- C7 (amended): the validator is a faithful re-derivation — `compliant` is
true iff every option passes all three checks (`expected_loss ≤ max_el`,
`upfront_amount ≤ approved_amount`, `7 ≤ settlement_days ≤ 90`), one
violation entry is recorded per failed check, and `options_count` is the list
length — independently of how the options were produced.  The claim's
round-trip consequent does not hold, because the generator itself can emit an
option violating the budget (see the counterexample); any option list whose
members do pass the three checks yields `compliant = true` with zero
violations. -/
theorem C7_validator (options : List CreditOption) (max_el : ℚ) :
    ((validate_compliance options max_el).compliant = true ↔
      ∀ opt ∈ options,
        opt.expected_loss ≤ max_el ∧ opt.upfront_amount ≤ opt.approved_amount ∧
          (7 ≤ opt.settlement_days ∧ opt.settlement_days ≤ 90)) ∧
    (validate_compliance options max_el).options_count = options.length ∧
    (validate_compliance options max_el).violations
      = (options.map (optViolations max_el)).flatten ∧
    (∀ opt : CreditOption,
      (optViolations max_el opt).length
        = (if max_el < opt.expected_loss then 1 else 0)
          + (if opt.approved_amount < opt.upfront_amount then 1 else 0)
          + (if 7 ≤ opt.settlement_days ∧ opt.settlement_days ≤ 90 then 0 else 1)) ∧
    (validate_compliance options max_el).violations.length
      = (options.map (fun opt => (optViolations max_el opt).length)).sum := by
  refine ⟨?_, rfl, rfl, ?_, ?_⟩
  · unfold validate_compliance
    dsimp only
    simp only [beq_iff_eq, List.length_eq_zero, List.flatten_eq_nil_iff, List.mem_map]
    constructor
    · intro h opt hopt
      exact optViolations_eq_nil_iff.mp (h _ ⟨opt, hopt, rfl⟩)
    · rintro h l ⟨opt, hopt, rfl⟩
      exact optViolations_eq_nil_iff.mpr (h opt hopt)
  · intro opt
    unfold optViolations
    simp only [List.length_append, apply_ite List.length, List.length_singleton,
      List.length_nil, ite_not]
  · unfold validate_compliance
    dsimp only
    rw [List.length_flatten, List.map_map]
    rfl

/-- C7 (witness): a singleton list carrying the witness scenario's
shortened-settlement option is compliant. -/
theorem C7_validator_witness :
    (validate_compliance [witOptionA] 5000).compliant = true := by
  refine (C7_validator [witOptionA] 5000).1.mpr ?_
  intro opt hopt
  rw [List.mem_singleton] at hopt
  subst hopt
  norm_num [witOptionA]

/-! ### C5 — risk-gate classification -/

/-- C5 (confirmed): `_categorize_risk` is a total function on score pairs;
it returns red whenever `intent_score` reaches the block threshold (the block
check is evaluated first, regardless of `capacity_score`), green exactly when
the intent score is below both the block and approve thresholds and the
capacity score reaches the approve threshold, and yellow in every remaining
case. -/
theorem C5_risk_gate (m : DecisionMatrix) (intent_score capacity_score : ℚ) :
    (m.block_intent_threshold ≤ intent_score →
      categorize m intent_score capacity_score = .red) ∧
    (categorize m intent_score capacity_score = .green ↔
      intent_score < m.block_intent_threshold ∧
      intent_score < m.approve_intent_threshold ∧
      m.approve_capacity_threshold ≤ capacity_score) ∧
    (categorize m intent_score capacity_score = .yellow ↔
      ¬ m.block_intent_threshold ≤ intent_score ∧
      ¬ (intent_score < m.approve_intent_threshold ∧
          m.approve_capacity_threshold ≤ capacity_score)) := by
  unfold categorize
  split_ifs with h1 h2
  · have h1' : ¬ intent_score < m.block_intent_threshold := not_lt.mpr h1
    simp [h1, h1']
  · have h1' : intent_score < m.block_intent_threshold := not_le.mp h1
    simp [h1, h1', h2]
  · have h1' : intent_score < m.block_intent_threshold := not_le.mp h1
    simp [h1, h1', h2]

/-- C5 (witness): the spec's Scenario C — intent 0.85, capacity 0.25 — is
blocked by the first check. -/
theorem C5_risk_gate_witness :
    DECISION_MATRIX.block_intent_threshold ≤ (17/20 : ℚ) ∧
    categorize DECISION_MATRIX (17/20) (1/4) = .red := by
  have h : DECISION_MATRIX.block_intent_threshold ≤ (17/20 : ℚ) := by
    norm_num [DECISION_MATRIX]
  exact ⟨h, (C5_risk_gate DECISION_MATRIX (17/20) (1/4)).1 h⟩

/-! ### C6 — decision gate versus risk-gate recomputation -/

/-- A scorer output whose embedded category disagrees with the gate's
recomputation (intent 0.85 would be red, the embedded field says green). -/
def mismatchedScoringResult : ScoringResult :=
  { intent_score := 17/20, capacity_score := 1/4,
    pd_7d := 1/4, pd_14d := 2/5, pd_30d := 3/5, risk_category := .green }

/-- C6 (counterexample): the orchestrator's decision gate branches on the
`risk_category` field embedded in the scorer's output verbatim
(`meta_agent.py` line 69) and never recomputes it; on a scorer output whose
embedded category disagrees with the gate, the embedded value — not the
recomputation — wins, contradicting "the gate's own recomputation takes
precedence". -/
theorem C6_gate_precedence_cex :
    decisionGateCategory mismatchedScoringResult = .green ∧
    categorize DECISION_MATRIX mismatchedScoringResult.intent_score
      mismatchedScoringResult.capacity_score = .red ∧
    decisionGateCategory mismatchedScoringResult ≠
      categorize DECISION_MATRIX mismatchedScoringResult.intent_score
        mismatchedScoringResult.capacity_score := by
  have h2 : categorize DECISION_MATRIX mismatchedScoringResult.intent_score
      mismatchedScoringResult.capacity_score = .red := by
    norm_num [mismatchedScoringResult, categorize, DECISION_MATRIX]
  refine ⟨rfl, h2, ?_⟩
  rw [h2]
  simp [decisionGateCategory, mismatchedScoringResult]

/-- C6 (amended): the orchestrator never recomputes the category — it
branches on the scorer's embedded `risk_category` verbatim — but every
scoring result `score_company` can actually produce (the two test-id mocks,
the dataset-based path, and the mock fallback) carries an embedded category
equal to the risk gate's recomputation from its own intent and capacity
scores, so the branched-on category extensionally agrees with the gate for
every booking request processed. -/
theorem C6_gate_agreement (br : BookingRequest) (src : ScoreSource) :
    (process_booking_request br src).risk_category
      = categorize DECISION_MATRIX (score_company src).intent_score
          (score_company src).capacity_score := by
  cases src with
  | testGreen =>
    norm_num [process_booking_request, score_company, GREEN_FLAG_SCORES,
      decisionGateCategory, categorize, DECISION_MATRIX]
  | testRed =>
    norm_num [process_booking_request, score_company, RED_FLAG_SCORES,
      decisionGateCategory, categorize, DECISION_MATRIX]
  | mockFallback =>
    norm_num [process_booking_request, score_company, MOCK_ML_SCORES,
      decisionGateCategory, categorize, DECISION_MATRIX, apply_ite]
  | dataset row =>
    cases h : categorize DECISION_MATRIX (estimateIntentScore row)
        (estimateCapacityScore row) <;>
      simp [process_booking_request, score_company, dataset_based_score,
        decisionGateCategory, h, apply_ite]

/-! ### C8 — financial analysis -/

/-- C8 (confirmed): the financial analysis is computed exactly as
`total_exposure = outstanding + booking_amount − upfront` with upfront 0,
`baseline_expected_loss = pd_30d × total_exposure × lgd`,
`exceeds_risk_appetite = (EL > max_expected_loss)` and
`exceeds_by = max(0, EL − max_expected_loss)`, with no clamping beyond the
documented `max(0, ·)` (stored currency fields carry Python's 2-decimal
rounding); on the spec's Scenario A (outstanding 45000, booking 50000,
pd30 0.15) it yields exposure 95000, baseline EL 9975, exceeds = true,
exceeds_by = 4975. -/
theorem C8_financial_analysis :
    (∀ current_outstanding booking_amount pd_30d : ℚ,
      (analyze current_outstanding booking_amount pd_30d).total_exposure
          = current_outstanding + booking_amount - 0 ∧
      (analyze current_outstanding booking_amount pd_30d).baseline_el_30d
          = pyRound2 (pd_30d * (current_outstanding + booking_amount - 0) * LGD) ∧
      ((analyze current_outstanding booking_amount pd_30d).exceeds_risk_appetite = true ↔
        MAX_EXPECTED_LOSS < pd_30d * (current_outstanding + booking_amount - 0) * LGD) ∧
      (analyze current_outstanding booking_amount pd_30d).exceeds_by
          = pyRound2 (max 0 (pd_30d * (current_outstanding + booking_amount - 0) * LGD
              - MAX_EXPECTED_LOSS))) ∧
    analyze 45000 50000 (3/20)
      = { total_exposure := 95000, baseline_el_30d := 9975,
          exceeds_risk_appetite := true, exceeds_by := 4975 } := by
  constructor
  · intro current_outstanding booking_amount pd_30d
    refine ⟨rfl, rfl, ?_, rfl⟩
    unfold analyze
    dsimp only
    rw [decide_eq_true_eq]
    rfl
  · norm_num [analyze, calculate_ead, calculate_expected_loss, LGD, MAX_EXPECTED_LOSS,
      pyRound2, roundHalfEven, Int.floor_eq_iff, max_def]

/-- C8 (witness): the Scenario A inputs exceed the risk appetite, via the
general equivalence. -/
theorem C8_financial_analysis_witness :
    MAX_EXPECTED_LOSS < (3/20 : ℚ) * (45000 + 50000 - 0) * LGD ∧
    (analyze 45000 50000 (3/20)).exceeds_risk_appetite = true := by
  have h : MAX_EXPECTED_LOSS < (3/20 : ℚ) * (45000 + 50000 - 0) * LGD := by
    norm_num [MAX_EXPECTED_LOSS, LGD]
  exact ⟨h, (C8_financial_analysis.1 45000 50000 (3/20)).2.2.1.mpr h⟩

/-- C1 (witness): the amended invariants instantiated on the spec's running
scenario, at the shortened-settlement option actually produced there. -/
theorem C1_option_invariants_witness :
    witOptionA ∈ generate_options 95000 45000 50000 (1/50) (2/25) (3/20) (7/10) 5000 ∧
    ((7 ≤ witOptionA.settlement_days ∧ witOptionA.settlement_days ≤ 90) ∧
    0 ≤ witOptionA.upfront_amount ∧
    ((witOptionA.type = .shortened_settlement ∨ witOptionA.type = .partial_approval) →
      witOptionA.expected_loss ≤ 5000 ∧
        witOptionA.upfront_amount ≤ witOptionA.approved_amount) ∧
    (witOptionA.type = .upfront_payment →
      ((95000 : ℚ) - 5000 / ((3/20) * (7/10)) ≤ 50000 →
        witOptionA.expected_loss ≤ 5000) ∧
      ((∃ j : ℤ, (50000 : ℚ) = (j : ℚ)) →
        witOptionA.upfront_amount ≤ witOptionA.approved_amount))) := by
  have hmem : witOptionA ∈ generate_options 95000 45000 50000 (1/50) (2/25) (3/20)
      (7/10) 5000 := by
    rw [wit_generate_options_eq]
    simp
  exact ⟨hmem, C1_option_invariants 95000 45000 50000 (1/50) (2/25) (3/20) (7/10) 5000
    (by norm_num) (by norm_num) ⟨500000, by norm_num⟩ witOptionA hmem⟩

/-! ### C2 — negotiation round ceiling and escalation terminality -/

/-- A well-formed Narrator reply accepting a round-4 exchange, used to show
that the engine processes rounds past 3. -/
def acceptedRound4Result : NegResult :=
  { response := "Round-4 counter accepted.",
    offer := some { upfront := 0, settlement_days := 15, approved_amount := 50000 },
    expected_loss := some 100, escalate := false }

/-- C2 (counterexample): the engine keeps no round counter and no terminal
flag.  A round-3 Narrator failure returns the escalation result, yet an
immediately following call on the very same session state computes and
returns a fresh counter-offer with `escalate = false` instead of rejecting
the call or re-returning the escalation; moreover a call with
`round_number = 4` is processed normally, so nothing bounds `round_number`
at 3. -/
theorem C2_negotiation_bounded_cex :
    (negotiate .failedEarly "still too expensive" 3 MOCK_BOOKING_REQUEST MOCK_PD_SCORES
        5000 []).1.escalate = true ∧
    (negotiate .failedEarly "let us keep talking" 2 MOCK_BOOKING_REQUEST MOCK_PD_SCORES
        5000
        (negotiate .failedEarly "still too expensive" 3 MOCK_BOOKING_REQUEST
          MOCK_PD_SCORES 5000 []).2).1.escalate = false ∧
    (negotiate .failedEarly "let us keep talking" 2 MOCK_BOOKING_REQUEST MOCK_PD_SCORES
        5000
        (negotiate .failedEarly "still too expensive" 3 MOCK_BOOKING_REQUEST
          MOCK_PD_SCORES 5000 []).2).1.offer ≠ none ∧
    (negotiate (.parsed acceptedRound4Result) "round four" 4 MOCK_BOOKING_REQUEST
        MOCK_PD_SCORES 5000 []).1 = acceptedRound4Result ∧
    acceptedRound4Result.escalate = false := by
  refine ⟨?_, ?_, ?_, rfl, rfl⟩
  · norm_num [negotiate, escalationResult, appendedTurns]
  · norm_num [negotiate, escalationResult, simple_offer, appendedTurns]
  · have h : (negotiate .failedEarly "let us keep talking" 2 MOCK_BOOKING_REQUEST
        MOCK_PD_SCORES 5000
        (negotiate .failedEarly "still too expensive" 3 MOCK_BOOKING_REQUEST
          MOCK_PD_SCORES 5000 []).2).1
        = simple_offer MOCK_BOOKING_REQUEST MOCK_PD_SCORES 5000 := by
      norm_num [negotiate]
    rw [h]
    simp [simple_offer]

/-- C2 (amended): the engine itself enforces no round ceiling and no terminal
escalated state.  On any Narrator failure it escalates exactly when the
caller-supplied `round_number` is at least 3 and otherwise returns the
deterministic fallback offer; the only session state is the conversation
history, which after the call is the old history plus whatever turns the
`try` block had already appended before raising (none for an early failure,
the customer turn for a missing-`response` reply, both turns for a logging
failure), and the computed result never depends on that history — so a
subsequent call behaves as if the escalation had never happened.  Bounding
`round_number` at 3 and treating escalation as terminal are caller-side
conventions, not properties of the engine. -/
theorem C2_negotiation_bounded (llm_outcome : NarratorOutcome)
    (user_message : String) (round_number : ℤ) (br : BookingRequest) (ml : MLScores)
    (max_el : ℚ) (history : List (String × String))
    (hfail : narratorFailed llm_outcome = true) :
    ((negotiate llm_outcome user_message round_number br ml max_el history).1.escalate
        = true ↔ 3 ≤ round_number) ∧
    (3 ≤ round_number →
      (negotiate llm_outcome user_message round_number br ml max_el history).1
        = escalationResult br) ∧
    (¬ 3 ≤ round_number →
      (negotiate llm_outcome user_message round_number br ml max_el history).1
        = simple_offer br ml max_el) ∧
    (negotiate llm_outcome user_message round_number br ml max_el history).2
      = history ++ appendedTurns user_message llm_outcome ∧
    (∀ history' : List (String × String),
      (negotiate llm_outcome user_message round_number br ml max_el history').1
        = (negotiate llm_outcome user_message round_number br ml max_el history).1) := by
  cases llm_outcome
  case parsed result => simp [narratorFailed] at hfail
  all_goals
    by_cases h : 3 ≤ round_number <;>
      simp [negotiate, h, escalationResult, simple_offer]

/-- C2 (witness): at round 3 an early Narrator failure escalates on the mock
booking. -/
theorem C2_negotiation_bounded_witness :
    narratorFailed .failedEarly = true ∧ (3 : ℤ) ≤ 3 ∧
    (negotiate .failedEarly "no deal" 3 MOCK_BOOKING_REQUEST MOCK_PD_SCORES 5000 []).1
      = escalationResult MOCK_BOOKING_REQUEST := by
  refine ⟨rfl, le_refl 3, ?_⟩
  exact (C2_negotiation_bounded .failedEarly "no deal" 3 MOCK_BOOKING_REQUEST
    MOCK_PD_SCORES 5000 [] rfl).2.1 (le_refl 3)

/-! ### C3 — no independent verification of Narrator offers -/

/-- A structurally invalid, far-over-budget offer as a Narrator could emit it:
negative upfront, 200-day settlement, expected loss 999999 against a budget
of 5000. -/
def unsafeNarratorOffer : NegOffer :=
  { upfront := -50, settlement_days := 200, approved_amount := 1000000 }

/-- The parsed Narrator reply carrying `unsafeNarratorOffer`. -/
def unsafeNarratorResult : NegResult :=
  { response := "Sure, we can approve that.",
    offer := some unsafeNarratorOffer,
    expected_loss := some 999999, escalate := false }

/-- C3 (counterexample): the engine performs no recomputation and no
structural check on a parsed Narrator reply — `negotiate` returns it
verbatim.  A reply whose recorded expected loss (999999) vastly exceeds the
budget (5000) and whose offer is structurally invalid (200-day settlement,
negative upfront) is returned unchanged to the customer with
`escalate = false`, so unverified externally generated offers are returned. -/
theorem C3_narrator_verification_cex :
    (negotiate (.parsed unsafeNarratorResult) "counter" 1 MOCK_BOOKING_REQUEST
        MOCK_PD_SCORES 5000 []).1 = unsafeNarratorResult ∧
    unsafeNarratorResult.expected_loss = some 999999 ∧
    ¬ ((999999 : ℚ) ≤ 5000) ∧
    unsafeNarratorResult.offer = some unsafeNarratorOffer ∧
    ¬ (unsafeNarratorOffer.settlement_days ≤ 90) ∧
    unsafeNarratorOffer.upfront < 0 ∧
    unsafeNarratorResult.escalate = false := by
  refine ⟨rfl, rfl, by norm_num, rfl, ?_, ?_, rfl⟩ <;>
    norm_num [unsafeNarratorOffer]

/-- C3 (amended): whatever reply the Narrator path fully parses is returned
exactly as parsed — no expected-loss recomputation, no budget comparison, no
structural validation — with both turns appended to the history; the
deterministic path is reached only when the `try` block raises (a failed
`NarratorOutcome`), not because a parsed offer is over budget or invalid. -/
theorem C3_narrator_verification (result : NegResult) (user_message : String)
    (round_number : ℤ) (br : BookingRequest) (ml : MLScores) (max_el : ℚ)
    (history : List (String × String)) :
    negotiate (.parsed result) user_message round_number br ml max_el history
      = (result, history ++ [("Customer", user_message), ("Agent", result.response)]) :=
  rfl

/-! ### C4 — deterministic negotiation fallback -/

/-- Counterexample booking: outstanding 100000, requested booking 10000. -/
def highExposureBooking : BookingRequest :=
  { company_id := "IN-TRV-000888", company_name := "HighExposure Agency",
    booking_amount := 10000, current_outstanding := 100000 }

/-- Counterexample PD values: pd_7d 0.4, pd_14d 0.6 (10-day midpoint 0.5). -/
def highPdScores : MLScores := { pd_7d := 2/5, pd_14d := 3/5, pd_30d := 1/2 }

/-- C4 (counterexample): the fallback is not always budget-valid.  With
outstanding 100000, booking 10000, midpoint PD 0.5, LGD 0.7 and budget 5000
the analytically required upfront (≈ 95714) is clamped to
`0.5 × booking = 5000`, leaving the offer's expected loss at
0.5 × 105000 × 0.7 = 36750 > 5000. -/
theorem C4_fallback_budget_cex :
    (simple_offer highExposureBooking highPdScores 5000).expected_loss = some 36750 ∧
    ¬ ((36750 : ℚ) ≤ 5000) := by
  constructor
  · norm_num [simple_offer, clampedRequiredUpfront, rawRequiredUpfront,
      negotiationExposure, pd_10d, calculate_expected_loss, LGD, pyRound2, roundHalfEven,
      Int.floor_eq_iff, highExposureBooking, highPdScores, min_def, max_def]
  · norm_num

/-- C4 (amended): the fallback constructs exactly one candidate — 10-day
settlement, default probability the midpoint of `pd_7d` and `pd_14d`,
required upfront `exposure − max_el/(pd × lgd)` clamped to
`[0, 0.5 × booking]`, approved amount the full booking, `escalate = false`,
expected loss `pd × (exposure − upfront) × lgd` — and that expected loss is
within budget whenever the unclamped required upfront does not exceed
`0.5 × booking` (when the upper clamp binds, the budget can be exceeded; see
the counterexample). -/
theorem C4_fallback_offer (br : BookingRequest) (ml : MLScores) (max_el : ℚ) :
    simple_offer br ml max_el =
      { response := "simple counter-offer (presentation text abstracted)",
        offer := some { upfront := pyRound0 (clampedRequiredUpfront br ml max_el),
                        settlement_days := 10, approved_amount := br.booking_amount },
        expected_loss := some (pyRound2 (calculate_expected_loss (pd_10d ml)
          (negotiationExposure br - clampedRequiredUpfront br ml max_el) LGD)),
        escalate := false } ∧
    (0 < pd_10d ml * LGD →
      rawRequiredUpfront br ml max_el ≤ br.booking_amount * (1/2) →
      calculate_expected_loss (pd_10d ml)
        (negotiationExposure br - clampedRequiredUpfront br ml max_el) LGD ≤ max_el) := by
  refine ⟨rfl, ?_⟩
  intro hpd hraw
  have hlgd : (0:ℚ) < LGD := by norm_num [LGD]
  have hpd10 : pd_10d ml ≠ 0 := by
    intro h0
    rw [h0, zero_mul] at hpd
    exact lt_irrefl 0 hpd
  have hmin : min (br.booking_amount * (1/2)) (rawRequiredUpfront br ml max_el)
      = rawRequiredUpfront br ml max_el := min_eq_right hraw
  rcases le_or_lt (rawRequiredUpfront br ml max_el) 0 with hneg | hpos
  · have hclamp : clampedRequiredUpfront br ml max_el = 0 := by
      unfold clampedRequiredUpfront
      rw [hmin]
      exact max_eq_left hneg
    rw [hclamp]
    have hexp : negotiationExposure br ≤ max_el / (pd_10d ml * LGD) := by
      have h' := hneg
      unfold rawRequiredUpfront at h'
      linarith
    have hexp' : negotiationExposure br * (pd_10d ml * LGD) ≤ max_el :=
      (le_div_iff₀ hpd).mp hexp
    unfold calculate_expected_loss
    nlinarith [hexp']
  · have hclamp : clampedRequiredUpfront br ml max_el
        = rawRequiredUpfront br ml max_el := by
      unfold clampedRequiredUpfront
      rw [hmin]
      exact max_eq_right hpos.le
    rw [hclamp]
    unfold calculate_expected_loss
    have hsub : negotiationExposure br - rawRequiredUpfront br ml max_el
        = max_el / (pd_10d ml * LGD) := by
      unfold rawRequiredUpfront
      ring
    rw [hsub]
    have hself : pd_10d ml * (max_el / (pd_10d ml * LGD)) * LGD = max_el := by
      field_simp
      ring
    rw [hself]

/-- C4 (witness): on the mock scenario the unclamped required upfront is
negative (well below half the booking), and the fallback's expected loss
3325 clears the 5000 budget. -/
theorem C4_fallback_offer_witness :
    0 < pd_10d MOCK_PD_SCORES * LGD ∧
    rawRequiredUpfront MOCK_BOOKING_REQUEST MOCK_PD_SCORES 5000
      ≤ MOCK_BOOKING_REQUEST.booking_amount * (1/2) ∧
    calculate_expected_loss (pd_10d MOCK_PD_SCORES)
      (negotiationExposure MOCK_BOOKING_REQUEST
        - clampedRequiredUpfront MOCK_BOOKING_REQUEST MOCK_PD_SCORES 5000) LGD ≤ 5000 := by
  have h1 : 0 < pd_10d MOCK_PD_SCORES * LGD := by
    norm_num [pd_10d, MOCK_PD_SCORES, LGD]
  have h2 : rawRequiredUpfront MOCK_BOOKING_REQUEST MOCK_PD_SCORES 5000
      ≤ MOCK_BOOKING_REQUEST.booking_amount * (1/2) := by
    norm_num [rawRequiredUpfront, negotiationExposure, pd_10d, MOCK_PD_SCORES,
      MOCK_BOOKING_REQUEST, LGD]
  exact ⟨h1, h2,
    (C4_fallback_offer MOCK_BOOKING_REQUEST MOCK_PD_SCORES 5000).2 h1 h2⟩
